import Mathlib

/-!
Shallow embedding of `src/scoring.py` (contact/entity priority scoring and
follow-up auto-escalation) and proofs about it.

Modelling conventions:
- Python dicts for contacts/entities become structures with the string fields
  the scorer reads (`dict.get` with default `""` / weight `0` becomes total
  functions with those defaults); the optional `"score"` key becomes an
  `Option ℚ` field.
- `date.today()` becomes an explicit `today : ℕ` parameter, the proleptic
  Gregorian ordinal of the current date (exactly Python's `date.toordinal`);
  `(today - fu_date).days` is the difference of ordinals.
- `datetime.strptime(s, "%Y-%m-%d").date()` is modelled by `parseDateOrd`:
  CPython's `%Y` matches exactly four digits, `%m` one or two digits with
  value 1..12, `%d` one or two digits with value 1..31, separated by literal
  dashes, with no trailing characters; `datetime.date` then validates
  `MINYEAR ≤ year` and `day ≤ days_in_month(year, month)`. A failed parse is
  `none` (the `except ValueError: pass` path). Only ASCII digits are modelled.
- Float arithmetic is modelled over `ℚ`; Python's `round(x, 1)` is modelled
  as exact round-half-to-even at one decimal (`pyRound1`). Binary-float
  representation error is below the granularity of every property proved here.
- In-place mutation of the caller's list (the `score` annotation and the
  `follow_up_priority` writes in auto-escalation) is modelled by explicit
  state passing: the escalation functions return the updated list together
  with the Python return value.
-/

/-- Python's `round(x, 1)`: round to one decimal, ties to even (banker's
rounding), modelled exactly over ℚ. -/
def pyRound1 (q : ℚ) : ℚ :=
  let x := q * 10
  let f : ℤ := Rat.floor x
  let r := x - (f : ℚ)
  let n : ℤ :=
    if r < 1/2 then f
    else if 1/2 < r then f + 1
    else if f % 2 = 0 then f else f + 1
  (n : ℚ) / 10

/-- Leap year test, as in `datetime._is_leap`. -/
def isLeapYear (y : ℕ) : Bool :=
  y % 4 == 0 && (y % 100 != 0 || y % 400 == 0)

/-- Days in a month, as in `datetime._days_in_month`. -/
def daysInMonth (y m : ℕ) : ℕ :=
  if m = 2 then (if isLeapYear y then 29 else 28)
  else if m = 4 ∨ m = 6 ∨ m = 9 ∨ m = 11 then 30
  else 31

/-- Days in the year strictly before month `m`, as in
`datetime._days_before_month` (table `_DAYS_BEFORE_MONTH` plus leap fix-up). -/
def daysBeforeMonth (y m : ℕ) : ℕ :=
  let base :=
    if m = 1 then 0 else if m = 2 then 31 else if m = 3 then 59
    else if m = 4 then 90 else if m = 5 then 120 else if m = 6 then 151
    else if m = 7 then 181 else if m = 8 then 212 else if m = 9 then 243
    else if m = 10 then 273 else if m = 11 then 304 else 334
  base + (if 2 < m && isLeapYear y then 1 else 0)

/-- Days before January 1 of year `y`, as in `datetime._days_before_year`. -/
def daysBeforeYear (y : ℕ) : ℕ :=
  ((y - 1) * 365 + (y - 1) / 4 + (y - 1) / 400) - (y - 1) / 100

/-- Proleptic Gregorian ordinal of a date, as in `datetime.date.toordinal`
(January 1 of year 1 is day 1). -/
def toOrdinal (y m d : ℕ) : ℕ :=
  daysBeforeYear y + daysBeforeMonth y m + d

/-- Numeric value of an ASCII digit character. -/
def charVal (c : Char) : ℕ := c.toNat - 48

/-- Day-of-month field of `strptime`'s `%d` directive, which must end the
string: one digit `1-9`, or two digits with value `01`..`31`; anything else
(including trailing characters) fails. -/
def parseDayEnd : List Char → Option ℕ
  | [c] => if c.isDigit && 1 ≤ charVal c then some (charVal c) else none
  | [c1, c2] =>
    if c1.isDigit && c2.isDigit then
      let v := 10 * charVal c1 + charVal c2
      if 1 ≤ v && v ≤ 31 then some v else none
    else none
  | _ => none

/-- `strptime(s, "%Y-%m-%d")` field extraction: exactly four digits for `%Y`,
a dash, one or two digits with value 1..12 for `%m`, a dash, then the day
field ending the string. Returns the raw `(year, month, day)` numbers. -/
def parseYMD (s : String) : Option (ℕ × ℕ × ℕ) :=
  match s.data with
  | c1 :: c2 :: c3 :: c4 :: '-' :: rest =>
    if c1.isDigit && c2.isDigit && c3.isDigit && c4.isDigit then
      let y := 1000 * charVal c1 + 100 * charVal c2 + 10 * charVal c3 + charVal c4
      match rest with
      | m1 :: m2 :: rest2 =>
        if m1.isDigit && m2.isDigit then
          let m := 10 * charVal m1 + charVal m2
          if 1 ≤ m && m ≤ 12 then
            match rest2 with
            | '-' :: rest3 => (parseDayEnd rest3).map (fun d => (y, m, d))
            | _ => none
          else none
        else
          if m1.isDigit && 1 ≤ charVal m1 && m2 = '-' then
            (parseDayEnd rest2).map (fun d => (y, charVal m1, d))
          else none
      | _ => none
    else none
  | _ => none

/-- `datetime.strptime(s, "%Y-%m-%d").date().toordinal()`, with `none` for
the `ValueError` path: either the format does not match or
`datetime.date(y, m, d)` rejects the field values. -/
def parseDateOrd (s : String) : Option ℕ :=
  match parseYMD s with
  | some (y, m, d) =>
    if 1 ≤ y ∧ 1 ≤ m ∧ m ≤ 12 ∧ 1 ≤ d ∧ d ≤ daysInMonth y m then
      some (toOrdinal y m d)
    else none
  | none => none

/-- A contact record: the dict fields `score_contact` and
`auto_upgrade_followup` read, plus the `score` annotation slot. -/
structure Contact where
  contact_priority : String
  follow_up_priority : String
  follow_up_date : String
  score : Option ℚ
deriving DecidableEq, Repr

/-- An entity record: the dict fields `score_entity` and
`auto_upgrade_entity_followup` read, plus the `score` annotation slot. -/
structure Entity where
  business_priority : String
  follow_up_priority : String
  follow_up_date : String
  score : Option ℚ
deriving DecidableEq, Repr

/-- `BP_WEIGHTS.get(s, 0)` from `scoring.py`. -/
def BP_WEIGHTS (s : String) : ℚ :=
  if s = "0-Critical" then 100
  else if s = "1-High" then 75
  else if s = "2-Medium" then 50
  else if s = "3-Low" then 25
  else 0

/-- `CP_WEIGHTS.get(s, 0)` from `scoring.py`. -/
def CP_WEIGHTS (s : String) : ℚ :=
  if s = "1A-인생관계" then 100
  else if s = "1M-Mentor, 은인" then 100
  else if s = "1F-Family" then 70
  else if s = "2A-비즈니스 우선순위" then 80
  else if s = "2C-비즈니스" then 50
  else if s = "3A-인적 우선순위" then 70
  else if s = "3C-인적 네트워킹" then 40
  else if s = "4A-Passive" then 20
  else if s = "5A-Inactive" then 0
  else 0

/-- `FU_WEIGHTS.get(s, 0)` from `scoring.py`. -/
def FU_WEIGHTS (s : String) : ℚ :=
  if s = "FU0" then 100
  else if s = "FU1" then 80
  else if s = "FU3" then 50
  else if s = "FU5" then 20
  else if s = "FU9" then 0
  else 0

/-- The `FU_UPGRADE` chain: `s in FU_UPGRADE` becomes `isSome`. -/
def FU_UPGRADE (s : String) : Option String :=
  if s = "FU5" then some ("FU3")
  else if s = "FU3" then some ("FU1")
  else if s = "FU1" then some ("FU0")
  else none

def OVERDUE_MULTIPLIER : ℚ := 2
def OVERDUE_CAP : ℚ := 100

/-- The body of the overdue computation shared by `score_contact` and
`score_entity`, as a function of `days_overdue = (date.today() - fu_date).days`. -/
def overduePenaltyDays (days : ℤ) : ℚ :=
  if 0 < days then min ((days : ℚ) * OVERDUE_MULTIPLIER) OVERDUE_CAP else 0

/-- The overdue block of `score_contact` / `score_entity`: 0 when the field is
empty (falsy), 0 when `strptime` raises, else the capped penalty. -/
def overduePenalty (today : ℕ) (fu_date_str : String) : ℚ :=
  if fu_date_str = "" then 0
  else
    match parseDateOrd fu_date_str with
    | some d => overduePenaltyDays ((today : ℤ) - (d : ℤ))
    | none => 0

/-- `score_contact` from `scoring.py`. -/
def score_contact (today : ℕ) (contact : Contact) : ℚ :=
  let cp := CP_WEIGHTS contact.contact_priority
  let fu := FU_WEIGHTS contact.follow_up_priority
  let overdue := overduePenalty today contact.follow_up_date
  let context : ℚ := 0
  pyRound1 (cp * 0.30 + fu * 0.25 + overdue * 0.30 + context * 0.15)

/-- `score_entity` from `scoring.py`. -/
def score_entity (today : ℕ) (entity : Entity) : ℚ :=
  let bp := BP_WEIGHTS entity.business_priority
  let fu := FU_WEIGHTS entity.follow_up_priority
  let overdue := overduePenalty today entity.follow_up_date
  pyRound1 (bp * 0.35 + fu * 0.30 + overdue * 0.35)

/-- One step of a stable descending insertion sort on key `key`: `x` goes in
front of the first element whose key is `≤ key x`, so equal keys keep their
original relative order. -/
def insertDescBy {α : Type} (key : α → ℚ) (x : α) : List α → List α
  | [] => [x]
  | y :: ys => if key y ≤ key x then x :: y :: ys else y :: insertDescBy key x ys

/-- Stable sort, descending by `key`: the semantics of CPython's
`sorted(l, key=key, reverse=True)` (stable; `reverse=True` does not reorder
equal keys). -/
def sortDescBy {α : Type} (key : α → ℚ) (l : List α) : List α :=
  l.foldr (insertDescBy key) []

/-- The key `lambda x: x["score"]` — every element has been annotated just
before the sort, so the `getD` default is never taken. -/
def contactKey (c : Contact) : ℚ := c.score.getD 0

def entityKey (e : Entity) : ℚ := e.score.getD 0

/-- `c["score"] = score_contact(c)`. -/
def annotateContact (today : ℕ) (c : Contact) : Contact :=
  { c with score := some (score_contact today c) }

def annotateEntity (today : ℕ) (e : Entity) : Entity :=
  { e with score := some (score_entity today e) }

/-- `sort_contacts_by_score` from `scoring.py`: annotate every record with its
score, then sort by score descending. -/
def sort_contacts_by_score (today : ℕ) (contacts : List Contact) : List Contact :=
  sortDescBy contactKey (contacts.map (annotateContact today))

/-- `sort_entities_by_score` from `scoring.py`. -/
def sort_entities_by_score (today : ℕ) (entities : List Entity) : List Entity :=
  sortDescBy entityKey (entities.map (annotateEntity today))

/-- `auto_upgrade_followup` from `scoring.py`. The Python function mutates
each upgraded dict in place and returns only the `upgraded` list; here the
first component is the post-call state of the input list and the second is
the returned list of `(contact, old_fu, new_fu)` triples (the triple holds
the mutated record, as the appended dict reference does). -/
def auto_upgrade_followup (today : ℕ) :
    List Contact → List Contact × List (Contact × String × String)
  | [] => ([], [])
  | contact :: rest =>
    let res := auto_upgrade_followup today rest
    match FU_UPGRADE contact.follow_up_priority with
    | none => (contact :: res.1, res.2)
    | some new_fu =>
      if contact.follow_up_date = "" then (contact :: res.1, res.2)
      else
        match parseDateOrd contact.follow_up_date with
        | none => (contact :: res.1, res.2)
        | some d =>
          if 7 < (today : ℤ) - (d : ℤ) then
            let c := { contact with follow_up_priority := new_fu }
            (c :: res.1, (c, contact.follow_up_priority, new_fu) :: res.2)
          else (contact :: res.1, res.2)

/-- `auto_upgrade_entity_followup` from `scoring.py`, modelled like
`auto_upgrade_followup`. -/
def auto_upgrade_entity_followup (today : ℕ) :
    List Entity → List Entity × List (Entity × String × String)
  | [] => ([], [])
  | entity :: rest =>
    let res := auto_upgrade_entity_followup today rest
    match FU_UPGRADE entity.follow_up_priority with
    | none => (entity :: res.1, res.2)
    | some new_fu =>
      if entity.follow_up_date = "" then (entity :: res.1, res.2)
      else
        match parseDateOrd entity.follow_up_date with
        | none => (entity :: res.1, res.2)
        | some d =>
          if 7 < (today : ℤ) - (d : ℤ) then
            let e := { entity with follow_up_priority := new_fu }
            (e :: res.1, (e, entity.follow_up_priority, new_fu) :: res.2)
          else (entity :: res.1, res.2)

/-! ## Spec-side definitions

These render the spec's own wording of the overdue penalty and of
auto-escalation, to be compared with the source-derived functions above. -/

/-- Modelled from the spec: the overdue penalty is `min(days_overdue * 2.0,
100)` when `followup_date` parses and is strictly before today, and `0`
otherwise (absent, non-past, or malformed). -/
def specPenalty (today : ℕ) (s : String) : ℚ :=
  match parseDateOrd s with
  | some d => if d < today then min ((((today : ℤ) - (d : ℤ) : ℤ) : ℚ) * 2) 100 else 0
  | none => 0

/-- Modelled from the spec: one step along the chain `FU5→FU3→FU1→FU0`
(identity elsewhere). -/
def nextTier (s : String) : String :=
  if s = "FU5" then ("FU3")
  else if s = "FU3" then ("FU1")
  else if s = "FU1" then ("FU0")
  else s

/-- Modelled from the spec: a contact escalates exactly when its tier is in
`{FU5, FU3, FU1}`, its date parses, and it is strictly more than 7 days
overdue; the escalation advances the tier one step and reports
`(record, old_tier, new_tier)`. -/
def specEscalateC (today : ℕ) (c : Contact) : Option (Contact × String × String) :=
  if c.follow_up_priority = "FU5" ∨ c.follow_up_priority = "FU3" ∨ c.follow_up_priority = "FU1" then
    match parseDateOrd c.follow_up_date with
    | some d =>
      if 7 < (today : ℤ) - (d : ℤ) then
        some ({ c with follow_up_priority := nextTier c.follow_up_priority },
          c.follow_up_priority, nextTier c.follow_up_priority)
      else none
    | none => none
  else none

/-- Entity version of `specEscalateC`. -/
def specEscalateE (today : ℕ) (e : Entity) : Option (Entity × String × String) :=
  if e.follow_up_priority = "FU5" ∨ e.follow_up_priority = "FU3" ∨ e.follow_up_priority = "FU1" then
    match parseDateOrd e.follow_up_date with
    | some d =>
      if 7 < (today : ℤ) - (d : ℤ) then
        some ({ e with follow_up_priority := nextTier e.follow_up_priority },
          e.follow_up_priority, nextTier e.follow_up_priority)
      else none
    | none => none
  else none

/-- The per-record effect of auto-escalation on the caller's list. -/
def escalApplyC (today : ℕ) (c : Contact) : Contact :=
  match specEscalateC today c with
  | some (c2, _, _) => c2
  | none => c

def escalApplyE (today : ℕ) (e : Entity) : Entity :=
  match specEscalateE today e with
  | some (e2, _, _) => e2
  | none => e

/-- Forget the `score` annotation slot (for frame statements: everything but
the score is untouched by ranking). -/
def stripScoreC (c : Contact) : Contact :=
  { c with score := none }

def stripScoreE (e : Entity) : Entity :=
  { e with score := none }

/-- The key set of `CP_WEIGHTS`. -/
def cpKeyList : List String :=
  ["1A-인생관계", "1M-Mentor, 은인", "1F-Family", "2A-비즈니스 우선순위", "2C-비즈니스",
   "3A-인적 우선순위", "3C-인적 네트워킹", "4A-Passive", "5A-Inactive"]

/-- The key set of `BP_WEIGHTS`. -/
def bpKeyList : List String :=
  ["0-Critical", "1-High", "2-Medium", "3-Low"]

/-- The key set of `FU_WEIGHTS`. -/
def fuKeyList : List String :=
  ["FU0", "FU1", "FU3", "FU5", "FU9"]

/-! ## Helper lemmas -/

theorem ratFloor_eq_intFloor (q : ℚ) : Rat.floor q = ⌊q⌋ := rfl

theorem pyRound1_int_tenths (n : ℤ) : pyRound1 ((n : ℚ) / 10) = (n : ℚ) / 10 := by
  have hx : ((n : ℚ) / 10) * 10 = (n : ℚ) := by
    field_simp
  simp only [pyRound1, hx, ratFloor_eq_intFloor, Int.floor_intCast]
  norm_num

theorem pyRound1_bounds (q : ℚ) (h0 : 0 ≤ q) (h85 : q ≤ 85) :
    0 ≤ pyRound1 q ∧ pyRound1 q ≤ 85 := by
  simp only [pyRound1, ratFloor_eq_intFloor]
  have hf0 : (0 : ℤ) ≤ ⌊q * 10⌋ := by
    apply Int.le_floor.mpr
    push_cast
    nlinarith
  have hfle : (⌊q * 10⌋ : ℚ) ≤ q * 10 := Int.floor_le _
  have hf850 : ⌊q * 10⌋ ≤ 850 := by
    have : (⌊q * 10⌋ : ℚ) ≤ 850 := le_trans hfle (by nlinarith)
    exact_mod_cast this
  have key : ∀ m : ℤ, 0 ≤ m → m ≤ 850 → (0 : ℚ) ≤ (m : ℚ) / 10 ∧ (m : ℚ) / 10 ≤ 85 := by
    intro m hm0 hm850
    constructor
    · positivity
    · rw [div_le_iff₀ (by norm_num : (0:ℚ) < 10)]
      have : (m : ℚ) ≤ 850 := by exact_mod_cast hm850
      linarith
  split_ifs with h1 h2 h3
  · exact key _ hf0 hf850
  · -- round up: the floor cannot already be 850, since then the remainder is 0
    rcases lt_or_eq_of_le hf850 with hlt | heq
    · exact key _ (by omega) (by omega)
    · exfalso
      have : (⌊q * 10⌋ : ℚ) = 850 := by exact_mod_cast heq
      rw [this] at h2
      nlinarith
  · exact key _ hf0 hf850
  · -- tie, floor odd: round up; as above the floor cannot be 850
    rcases lt_or_eq_of_le hf850 with hlt | heq
    · exact key _ (by omega) (by omega)
    · exfalso
      have h850 : (⌊q * 10⌋ : ℚ) = 850 := by exact_mod_cast heq
      rw [h850] at h1
      have : q * 10 - 850 < 1/2 := by nlinarith
      exact h1 this

theorem CP_WEIGHTS_bounds (s : String) : 0 ≤ CP_WEIGHTS s ∧ CP_WEIGHTS s ≤ 100 := by
  unfold CP_WEIGHTS
  split_ifs <;> norm_num

theorem BP_WEIGHTS_bounds (s : String) : 0 ≤ BP_WEIGHTS s ∧ BP_WEIGHTS s ≤ 100 := by
  unfold BP_WEIGHTS
  split_ifs <;> norm_num

theorem FU_WEIGHTS_bounds (s : String) : 0 ≤ FU_WEIGHTS s ∧ FU_WEIGHTS s ≤ 100 := by
  unfold FU_WEIGHTS
  split_ifs <;> norm_num

theorem overduePenaltyDays_bounds (d : ℤ) :
    0 ≤ overduePenaltyDays d ∧ overduePenaltyDays d ≤ 100 := by
  unfold overduePenaltyDays OVERDUE_MULTIPLIER OVERDUE_CAP
  split_ifs with h
  · constructor
    · apply le_min
      · have : (0 : ℚ) ≤ (d : ℚ) := by exact_mod_cast le_of_lt h
        nlinarith
      · norm_num
    · exact min_le_right _ _
  · norm_num

theorem overduePenalty_bounds (today : ℕ) (s : String) :
    0 ≤ overduePenalty today s ∧ overduePenalty today s ≤ 100 := by
  unfold overduePenalty
  split_ifs
  · norm_num
  · cases h : parseDateOrd s with
    | none => norm_num
    | some d => exact overduePenaltyDays_bounds _

theorem parseDateOrd_empty : parseDateOrd ("") = none := rfl

theorem overduePenalty_eq_specPenalty (today : ℕ) (s : String) :
    overduePenalty today s = specPenalty today s := by
  unfold overduePenalty specPenalty
  by_cases hs : s = ""
  · subst hs
    simp [parseDateOrd_empty]
  · rw [if_neg hs]
    cases h : parseDateOrd s with
    | none => rfl
    | some d =>
      dsimp only
      unfold overduePenaltyDays OVERDUE_MULTIPLIER OVERDUE_CAP
      have hiff : (0 < (today : ℤ) - (d : ℤ)) ↔ d < today := by omega
      by_cases hd : d < today
      · rw [if_pos (hiff.mpr hd), if_pos hd]
      · rw [if_neg (fun hpos => hd (hiff.mp hpos)), if_neg hd]

section SortLemmas

variable {α : Type} (key : α → ℚ)

theorem insertDescBy_perm (x : α) (l : List α) :
    (insertDescBy key x l).Perm (x :: l) := by
  induction l with
  | nil => exact List.Perm.refl _
  | cons y ys ih =>
    by_cases h : key y ≤ key x
    · simp only [insertDescBy, if_pos h]
      exact List.Perm.refl _
    · simp only [insertDescBy, if_neg h]
      exact (ih.cons y).trans (List.Perm.swap x y ys)

theorem sortDescBy_perm (l : List α) : (sortDescBy key l).Perm l := by
  induction l with
  | nil => exact List.Perm.refl _
  | cons a l ih =>
    have h : sortDescBy key (a :: l) = insertDescBy key a (sortDescBy key l) := rfl
    rw [h]
    exact (insertDescBy_perm key a (sortDescBy key l)).trans (ih.cons a)

theorem insertDescBy_sorted (x : α) (l : List α)
    (h : l.Pairwise (fun a b => key b ≤ key a)) :
    (insertDescBy key x l).Pairwise (fun a b => key b ≤ key a) := by
  induction l with
  | nil => simp [insertDescBy]
  | cons y ys ih =>
    rcases List.pairwise_cons.mp h with ⟨hy, hys⟩
    by_cases hxy : key y ≤ key x
    · simp only [insertDescBy, if_pos hxy]
      refine List.pairwise_cons.mpr ⟨?_, h⟩
      intro b hb
      rcases List.mem_cons.mp hb with rfl | hb2
      · exact hxy
      · exact le_trans (hy b hb2) hxy
    · simp only [insertDescBy, if_neg hxy]
      refine List.pairwise_cons.mpr ⟨?_, ih hys⟩
      intro b hb
      rcases List.mem_cons.mp ((insertDescBy_perm key x ys).mem_iff.mp hb) with rfl | hb2
      · exact le_of_lt (lt_of_not_le hxy)
      · exact hy b hb2

theorem sortDescBy_sorted (l : List α) :
    (sortDescBy key l).Pairwise (fun a b => key b ≤ key a) := by
  induction l with
  | nil => simp [sortDescBy]
  | cons a l ih => exact insertDescBy_sorted key a (sortDescBy key l) ih

theorem insertDescBy_filter (x : α) (l : List α) (q : ℚ) :
    (insertDescBy key x l).filter (fun a => decide (key a = q)) =
      if key x = q then x :: l.filter (fun a => decide (key a = q))
      else l.filter (fun a => decide (key a = q)) := by
  induction l with
  | nil =>
    by_cases hx : key x = q
    · simp [insertDescBy, List.filter, hx]
    · simp [insertDescBy, List.filter, hx]
  | cons y ys ih =>
    by_cases hxy : key y ≤ key x
    · simp only [insertDescBy, if_pos hxy]
      by_cases hx : key x = q <;> by_cases hy : key y = q <;>
        simp [List.filter_cons, hx, hy]
    · simp only [insertDescBy, if_neg hxy]
      have hyx : key x < key y := lt_of_not_le hxy
      by_cases hx : key x = q
      · have hy : ¬ (key y = q) := by
          intro hyq
          rw [hx] at hyx
          rw [hyq] at hyx
          exact lt_irrefl _ hyx
        simp [List.filter_cons, hy, ih, hx]
      · by_cases hy : key y = q <;>
          simp [List.filter_cons, hy, ih, hx]

theorem sortDescBy_filter (l : List α) (q : ℚ) :
    (sortDescBy key l).filter (fun a => decide (key a = q)) =
      l.filter (fun a => decide (key a = q)) := by
  induction l with
  | nil => rfl
  | cons a l ih =>
    have h : sortDescBy key (a :: l) = insertDescBy key a (sortDescBy key l) := rfl
    rw [h, insertDescBy_filter]
    by_cases ha : key a = q <;> simp [List.filter_cons, ha, ih]

theorem sortDescBy_eq_of_sorted (l : List α)
    (h : l.Pairwise (fun a b => key b ≤ key a)) : sortDescBy key l = l := by
  induction l with
  | nil => rfl
  | cons a l ih =>
    have hs : sortDescBy key (a :: l) = insertDescBy key a (sortDescBy key l) := rfl
    rw [hs, ih (List.Pairwise.of_cons h)]
    cases l with
    | nil => rfl
    | cons y ys =>
      have hya : key y ≤ key a :=
        (List.pairwise_cons.mp h).1 y (List.mem_cons_self y ys)
      simp [insertDescBy, if_pos hya]

end SortLemmas

theorem FU_UPGRADE_eq_spec (s : String) :
    FU_UPGRADE s =
      if s = "FU5" ∨ s = "FU3" ∨ s = "FU1" then some (nextTier s) else none := by
  unfold FU_UPGRADE nextTier
  by_cases h5 : s = "FU5"
  · simp [h5]
  · by_cases h3 : s = "FU3"
    · simp [h3]
    · by_cases h1 : s = "FU1"
      · simp [h1]
      · simp [h5, h3, h1]

theorem auto_upgrade_followup_cons (today : ℕ) (c : Contact) (rest : List Contact) :
    auto_upgrade_followup today (c :: rest) =
      match specEscalateC today c with
      | some (c2, old, nw) =>
        (c2 :: (auto_upgrade_followup today rest).1,
         (c2, old, nw) :: (auto_upgrade_followup today rest).2)
      | none =>
        (c :: (auto_upgrade_followup today rest).1,
         (auto_upgrade_followup today rest).2) := by
  unfold specEscalateC
  by_cases htier :
      c.follow_up_priority = "FU5" ∨ c.follow_up_priority = "FU3" ∨ c.follow_up_priority = "FU1"
  · rw [if_pos htier]
    have hup : FU_UPGRADE c.follow_up_priority = some (nextTier c.follow_up_priority) := by
      rw [FU_UPGRADE_eq_spec, if_pos htier]
    simp only [auto_upgrade_followup, hup]
    by_cases hdate : c.follow_up_date = ""
    · rw [if_pos hdate, hdate, parseDateOrd_empty]
    · rw [if_neg hdate]
      cases hp : parseDateOrd c.follow_up_date with
      | none => rfl
      | some d =>
        dsimp only
        by_cases h7 : 7 < (today : ℤ) - (d : ℤ) <;> simp [h7]
  · rw [if_neg htier]
    have hup : FU_UPGRADE c.follow_up_priority = none := by
      rw [FU_UPGRADE_eq_spec, if_neg htier]
    simp only [auto_upgrade_followup, hup]

theorem auto_upgrade_entity_followup_cons (today : ℕ) (e : Entity) (rest : List Entity) :
    auto_upgrade_entity_followup today (e :: rest) =
      match specEscalateE today e with
      | some (e2, old, nw) =>
        (e2 :: (auto_upgrade_entity_followup today rest).1,
         (e2, old, nw) :: (auto_upgrade_entity_followup today rest).2)
      | none =>
        (e :: (auto_upgrade_entity_followup today rest).1,
         (auto_upgrade_entity_followup today rest).2) := by
  unfold specEscalateE
  by_cases htier :
      e.follow_up_priority = "FU5" ∨ e.follow_up_priority = "FU3" ∨ e.follow_up_priority = "FU1"
  · rw [if_pos htier]
    have hup : FU_UPGRADE e.follow_up_priority = some (nextTier e.follow_up_priority) := by
      rw [FU_UPGRADE_eq_spec, if_pos htier]
    simp only [auto_upgrade_entity_followup, hup]
    by_cases hdate : e.follow_up_date = ""
    · rw [if_pos hdate, hdate, parseDateOrd_empty]
    · rw [if_neg hdate]
      cases hp : parseDateOrd e.follow_up_date with
      | none => rfl
      | some d =>
        dsimp only
        by_cases h7 : 7 < (today : ℤ) - (d : ℤ) <;> simp [h7]
  · rw [if_neg htier]
    have hup : FU_UPGRADE e.follow_up_priority = none := by
      rw [FU_UPGRADE_eq_spec, if_neg htier]
    simp only [auto_upgrade_entity_followup, hup]

theorem score_contact_annotate (today : ℕ) (c : Contact) :
    score_contact today (annotateContact today c) = score_contact today c := rfl

theorem score_entity_annotate (today : ℕ) (e : Entity) :
    score_entity today (annotateEntity today e) = score_entity today e := rfl

theorem annotateContact_idem (today : ℕ) (c : Contact) :
    annotateContact today (annotateContact today c) = annotateContact today c := rfl

theorem annotateEntity_idem (today : ℕ) (e : Entity) :
    annotateEntity today (annotateEntity today e) = annotateEntity today e := rfl

theorem stripScoreC_annotate (today : ℕ) (c : Contact) :
    stripScoreC (annotateContact today c) = stripScoreC c := rfl

theorem stripScoreE_annotate (today : ℕ) (e : Entity) :
    stripScoreE (annotateEntity today e) = stripScoreE e := rfl

theorem map_id_of_mem {α : Type} (f : α → α) (l : List α) (h : ∀ x ∈ l, f x = x) :
    l.map f = l := by
  induction l with
  | nil => rfl
  | cons a t ih =>
    rw [List.map_cons, h a (List.mem_cons_self a t),
      ih (fun x hx => h x (List.mem_cons_of_mem a hx))]

theorem pyRound1_eighteen : pyRound1 18 = 18 := by
  have h := pyRound1_int_tenths 180
  norm_num at h
  exact h

/-! ## Claim theorems -/

/-- Claim C1: for every contact, `score_contact` is the rounded weighted sum
`round(0.30*priority_weight + 0.25*followup_weight + 0.30*overdue_penalty +
0.15*0, 1)`, and for every entity, `score_entity` is
`round(0.35*priority_weight + 0.30*followup_weight + 0.35*overdue_penalty, 1)`,
with the weights from the fixed tables and the overdue penalty equal to
`min(days_overdue * 2.0, 100)` when the date parses and is strictly before
today, and `0` otherwise (absent, non-past, or malformed). -/
theorem C1_score_formula (today : ℕ) (c : Contact) (e : Entity) :
    score_contact today c =
      pyRound1 (0.30 * CP_WEIGHTS c.contact_priority +
        0.25 * FU_WEIGHTS c.follow_up_priority +
        0.30 * specPenalty today c.follow_up_date + 0.15 * 0) ∧
    score_entity today e =
      pyRound1 (0.35 * BP_WEIGHTS e.business_priority +
        0.30 * FU_WEIGHTS e.follow_up_priority +
        0.35 * specPenalty today e.follow_up_date) := by
  constructor
  · simp only [score_contact]
    rw [overduePenalty_eq_specPenalty]
    congr 1
    ring
  · simp only [score_entity]
    rw [overduePenalty_eq_specPenalty]
    congr 1
    ring

/-- Claim C2: auto-escalation returns exactly the records whose tier is in
`{FU5, FU3, FU1}`, whose date parses, and which are strictly more than 7 days
overdue, each advanced one step along `FU5→FU3→FU1→FU0` and reported as
`(record, old_tier, new_tier)`, in input order; every other record (tier
`FU9`, `FU0`, unrecognized, missing or malformed date, or exactly 7 days
overdue) is skipped silently. -/
theorem C2_auto_escalation (today : ℕ) (contacts : List Contact) (entities : List Entity) :
    (auto_upgrade_followup today contacts).2 = contacts.filterMap (specEscalateC today) ∧
    (auto_upgrade_entity_followup today entities).2 = entities.filterMap (specEscalateE today) := by
  constructor
  · induction contacts with
    | nil => rfl
    | cons c rest ih =>
      rw [auto_upgrade_followup_cons]
      cases h : specEscalateC today c with
      | none => simp [List.filterMap_cons, h, ih]
      | some t =>
        rcases t with ⟨c2, old, nw⟩
        simp [List.filterMap_cons, h, ih]
  · induction entities with
    | nil => rfl
    | cons e rest ih =>
      rw [auto_upgrade_entity_followup_cons]
      cases h : specEscalateE today e with
      | none => simp [List.filterMap_cons, h, ih]
      | some t =>
        rcases t with ⟨e2, old, nw⟩
        simp [List.filterMap_cons, h, ih]

/-- Claim C9: the overdue penalty is monotonically non-decreasing in
`days_overdue`, saturates at 100, and takes the values 2.0 at day 1, 100.0 at
day 50 and 100.0 at day 51. -/
theorem C9_overdue_penalty_monotone :
    (∀ d1 d2 : ℤ, d1 ≤ d2 → overduePenaltyDays d1 ≤ overduePenaltyDays d2) ∧
    (∀ d : ℤ, overduePenaltyDays d ≤ 100) ∧
    overduePenaltyDays 1 = 2 ∧ overduePenaltyDays 50 = 100 ∧ overduePenaltyDays 51 = 100 := by
  refine ⟨?_, ?_, ?_, ?_, ?_⟩
  · intro d1 d2 h
    unfold overduePenaltyDays OVERDUE_MULTIPLIER OVERDUE_CAP
    by_cases h1 : 0 < d1
    · rw [if_pos h1, if_pos (lt_of_lt_of_le h1 h)]
      refine min_le_min ?_ le_rfl
      have hc : (d1 : ℚ) ≤ (d2 : ℚ) := by exact_mod_cast h
      linarith
    · rw [if_neg h1]
      by_cases h2 : 0 < d2
      · rw [if_pos h2]
        refine le_min ?_ (by norm_num)
        have hc : (0 : ℚ) ≤ (d2 : ℚ) := by exact_mod_cast le_of_lt h2
        linarith
      · rw [if_neg h2]
  · intro d
    unfold overduePenaltyDays OVERDUE_MULTIPLIER OVERDUE_CAP
    by_cases h : 0 < d
    · rw [if_pos h]
      exact min_le_right _ _
    · rw [if_neg h]
      norm_num
  · norm_num [overduePenaltyDays, OVERDUE_MULTIPLIER, OVERDUE_CAP, min_def]
  · norm_num [overduePenaltyDays, OVERDUE_MULTIPLIER, OVERDUE_CAP, min_def]
  · norm_num [overduePenaltyDays, OVERDUE_MULTIPLIER, OVERDUE_CAP, min_def]

/-- Witness for C9 at concrete days 3 ≤ 5. -/
theorem C9_overdue_penalty_monotone_witness :
    overduePenaltyDays 3 ≤ overduePenaltyDays 5 :=
  C9_overdue_penalty_monotone.1 3 5 (by norm_num)

theorem specEscalateC_shape (today : ℕ) (c : Contact) (t : Contact × String × String)
    (h : specEscalateC today c = some t) :
    t.1 = { c with follow_up_priority := nextTier c.follow_up_priority } ∧
    t.2.1 = c.follow_up_priority ∧ t.2.2 = nextTier c.follow_up_priority := by
  unfold specEscalateC at h
  by_cases htier :
      c.follow_up_priority = "FU5" ∨ c.follow_up_priority = "FU3" ∨ c.follow_up_priority = "FU1"
  · rw [if_pos htier] at h
    cases hp : parseDateOrd c.follow_up_date with
    | none => rw [hp] at h; cases h
    | some d =>
      rw [hp] at h
      dsimp only at h
      by_cases h7 : 7 < (today : ℤ) - (d : ℤ)
      · rw [if_pos h7] at h
        cases h
        exact ⟨rfl, rfl, rfl⟩
      · rw [if_neg h7] at h
        cases h
  · rw [if_neg htier] at h
    cases h

theorem specEscalateE_shape (today : ℕ) (e : Entity) (t : Entity × String × String)
    (h : specEscalateE today e = some t) :
    t.1 = { e with follow_up_priority := nextTier e.follow_up_priority } ∧
    t.2.1 = e.follow_up_priority ∧ t.2.2 = nextTier e.follow_up_priority := by
  unfold specEscalateE at h
  by_cases htier :
      e.follow_up_priority = "FU5" ∨ e.follow_up_priority = "FU3" ∨ e.follow_up_priority = "FU1"
  · rw [if_pos htier] at h
    cases hp : parseDateOrd e.follow_up_date with
    | none => rw [hp] at h; cases h
    | some d =>
      rw [hp] at h
      dsimp only at h
      by_cases h7 : 7 < (today : ℤ) - (d : ℤ)
      · rw [if_pos h7] at h
        cases h
        exact ⟨rfl, rfl, rfl⟩
      · rw [if_neg h7] at h
        cases h
  · rw [if_neg htier] at h
    cases h

/-- Claim C3, counterexample: on a contact with tier `FU5` and a date 11 days
overdue, auto-escalation changes the record's `follow_up_priority` field in
place (the post-call state of the caller's list is not the input list), so the
operation is not free of tier mutation. -/
theorem C3_counterexample :
    (auto_upgrade_followup (toOrdinal 2026 10 12)
        [⟨"", "FU5", "2026-10-01", none⟩]).1 ≠ [⟨"", "FU5", "2026-10-01", none⟩] := by
  decide

/-- Claim C3 as amended: the batch ranking operation mutates its records only
through the `score` annotation; the auto-escalation operation additionally
writes each escalated record's followup tier in place, advancing it one step
(`escalApplyC`/`escalApplyE` change at most `follow_up_priority`), while also
returning the `(record, old_tier, new_tier)` list; no external persistence is
modelled or performed. -/
theorem C3_mutation_frame (today : ℕ) (contacts : List Contact) (entities : List Entity) :
    (auto_upgrade_followup today contacts).1 = contacts.map (escalApplyC today) ∧
    (auto_upgrade_entity_followup today entities).1 = entities.map (escalApplyE today) ∧
    (∀ c : Contact, ∃ fu : String, escalApplyC today c = { c with follow_up_priority := fu }) ∧
    (∀ e : Entity, ∃ fu : String, escalApplyE today e = { e with follow_up_priority := fu }) ∧
    ((sort_contacts_by_score today contacts).map stripScoreC).Perm (contacts.map stripScoreC) ∧
    ((sort_entities_by_score today entities).map stripScoreE).Perm (entities.map stripScoreE) := by
  refine ⟨?_, ?_, ?_, ?_, ?_, ?_⟩
  · induction contacts with
    | nil => rfl
    | cons c rest ih =>
      rw [auto_upgrade_followup_cons]
      cases h : specEscalateC today c with
      | none => simp [List.map_cons, escalApplyC, h, ih]
      | some t =>
        rcases t with ⟨c2, old, nw⟩
        simp [List.map_cons, escalApplyC, h, ih]
  · induction entities with
    | nil => rfl
    | cons e rest ih =>
      rw [auto_upgrade_entity_followup_cons]
      cases h : specEscalateE today e with
      | none => simp [List.map_cons, escalApplyE, h, ih]
      | some t =>
        rcases t with ⟨e2, old, nw⟩
        simp [List.map_cons, escalApplyE, h, ih]
  · intro c
    unfold escalApplyC
    cases h : specEscalateC today c with
    | none => exact ⟨c.follow_up_priority, rfl⟩
    | some t =>
      refine ⟨nextTier c.follow_up_priority, ?_⟩
      exact (specEscalateC_shape today c t h).1
  · intro e
    unfold escalApplyE
    cases h : specEscalateE today e with
    | none => exact ⟨e.follow_up_priority, rfl⟩
    | some t =>
      refine ⟨nextTier e.follow_up_priority, ?_⟩
      exact (specEscalateE_shape today e t h).1
  · have hperm :=
      (sortDescBy_perm contactKey (contacts.map (annotateContact today))).map stripScoreC
    have hmm : (contacts.map (annotateContact today)).map stripScoreC =
        contacts.map stripScoreC := by
      rw [List.map_map]
      exact congrFun (congrArg List.map (funext (stripScoreC_annotate today))) contacts
    rw [hmm] at hperm
    exact hperm
  · have hperm :=
      (sortDescBy_perm entityKey (entities.map (annotateEntity today))).map stripScoreE
    have hmm : (entities.map (annotateEntity today)).map stripScoreE =
        entities.map stripScoreE := by
      rw [List.map_map]
      exact congrFun (congrArg List.map (funext (stripScoreE_annotate today))) entities
    rw [hmm] at hperm
    exact hperm

/-- Claim C4, counterexample: the scorer's contact table is keyed by the full
tier strings, so the abbreviated key `"1A"` is not mapped to 100 (it falls
through to the default weight 0). -/
theorem C4_counterexample : ¬ (CP_WEIGHTS ("1A") = 100) := by
  decide

/-- Claim C4 as amended: with the contact tiers named by their full key
strings (`1A-인생관계`, `1M-Mentor, 은인`, `1F-Family`, `2A-비즈니스 우선순위`,
`2C-비즈니스`, `3A-인적 우선순위`, `3C-인적 네트워킹`, `4A-Passive`,
`5A-Inactive`), every documented table value matches the weight the scorer
uses, and every string outside a table gets weight 0. -/
theorem C4_weight_tables :
    (CP_WEIGHTS ("1A-인생관계") = 100 ∧ CP_WEIGHTS ("1M-Mentor, 은인") = 100 ∧
      CP_WEIGHTS ("1F-Family") = 70 ∧ CP_WEIGHTS ("2A-비즈니스 우선순위") = 80 ∧
      CP_WEIGHTS ("2C-비즈니스") = 50 ∧ CP_WEIGHTS ("3A-인적 우선순위") = 70 ∧
      CP_WEIGHTS ("3C-인적 네트워킹") = 40 ∧ CP_WEIGHTS ("4A-Passive") = 20 ∧
      CP_WEIGHTS ("5A-Inactive") = 0 ∧
      BP_WEIGHTS ("0-Critical") = 100 ∧ BP_WEIGHTS ("1-High") = 75 ∧
      BP_WEIGHTS ("2-Medium") = 50 ∧ BP_WEIGHTS ("3-Low") = 25 ∧
      FU_WEIGHTS ("FU0") = 100 ∧ FU_WEIGHTS ("FU1") = 80 ∧ FU_WEIGHTS ("FU3") = 50 ∧
      FU_WEIGHTS ("FU5") = 20 ∧ FU_WEIGHTS ("FU9") = 0) ∧
    (∀ s : String, s ∉ cpKeyList → CP_WEIGHTS s = 0) ∧
    (∀ s : String, s ∉ bpKeyList → BP_WEIGHTS s = 0) ∧
    (∀ s : String, s ∉ fuKeyList → FU_WEIGHTS s = 0) := by
  refine ⟨by decide, ?_, ?_, ?_⟩
  · intro s hs
    simp only [cpKeyList, List.mem_cons, List.not_mem_nil, or_false, not_or] at hs
    obtain ⟨h1, h2, h3, h4, h5, h6, h7, h8, h9⟩ := hs
    simp [CP_WEIGHTS, h1, h2, h3, h4, h5, h6, h7, h8, h9]
  · intro s hs
    simp only [bpKeyList, List.mem_cons, List.not_mem_nil, or_false, not_or] at hs
    obtain ⟨h1, h2, h3, h4⟩ := hs
    simp [BP_WEIGHTS, h1, h2, h3, h4]
  · intro s hs
    simp only [fuKeyList, List.mem_cons, List.not_mem_nil, or_false, not_or] at hs
    obtain ⟨h1, h2, h3, h4, h5⟩ := hs
    simp [FU_WEIGHTS, h1, h2, h3, h4, h5]

/-- Witness for C4 at the concrete unrecognized string `"1A"`. -/
theorem C4_weight_tables_witness : CP_WEIGHTS ("1A") = 0 :=
  C4_weight_tables.2.1 ("1A") (by decide)

/-- Claim C5, counterexample: auto-escalation is not idempotent. On a contact
with tier `FU5` and a date 11 days overdue, the first run escalates
`FU5→FU3` and mutates the record; running the operation again on the
resulting records escalates `FU3→FU1`, so the second output differs from the
first. -/
theorem C5_counterexample :
    (auto_upgrade_followup (toOrdinal 2026 10 12)
        ((auto_upgrade_followup (toOrdinal 2026 10 12)
          [⟨"", "FU5", "2026-10-01", none⟩]).1)).2 ≠
      (auto_upgrade_followup (toOrdinal 2026 10 12)
        [⟨"", "FU5", "2026-10-01", none⟩]).2 := by
  decide

/-- Claim C5 as amended: the batch ranking operations are idempotent (with a
fixed today, re-running them on their own output changes neither the scores
nor the order); the auto-escalation operation is not, since each run advances
a still-overdue record one further tier until `FU0` is reached. -/
theorem C5_rank_idempotent (today : ℕ) (contacts : List Contact) (entities : List Entity) :
    sort_contacts_by_score today (sort_contacts_by_score today contacts) =
      sort_contacts_by_score today contacts ∧
    sort_entities_by_score today (sort_entities_by_score today entities) =
      sort_entities_by_score today entities := by
  constructor
  · unfold sort_contacts_by_score
    have hmap : (sortDescBy contactKey (contacts.map (annotateContact today))).map
        (annotateContact today) =
        sortDescBy contactKey (contacts.map (annotateContact today)) := by
      apply map_id_of_mem
      intro x hx
      have hx2 : x ∈ contacts.map (annotateContact today) :=
        (sortDescBy_perm contactKey (contacts.map (annotateContact today))).mem_iff.mp hx
      rcases List.mem_map.mp hx2 with ⟨c, _, rfl⟩
      exact annotateContact_idem today c
    rw [hmap]
    exact sortDescBy_eq_of_sorted contactKey _
      (sortDescBy_sorted contactKey (contacts.map (annotateContact today)))
  · unfold sort_entities_by_score
    have hmap : (sortDescBy entityKey (entities.map (annotateEntity today))).map
        (annotateEntity today) =
        sortDescBy entityKey (entities.map (annotateEntity today)) := by
      apply map_id_of_mem
      intro x hx
      have hx2 : x ∈ entities.map (annotateEntity today) :=
        (sortDescBy_perm entityKey (entities.map (annotateEntity today))).mem_iff.mp hx
      rcases List.mem_map.mp hx2 with ⟨e, _, rfl⟩
      exact annotateEntity_idem today e
    rw [hmap]
    exact sortDescBy_eq_of_sorted entityKey _
      (sortDescBy_sorted entityKey (entities.map (annotateEntity today)))

theorem overduePenalty_thirty (today : ℕ) (s : String) (d : ℕ)
    (hdate : parseDateOrd s = some d) (h30 : (today : ℤ) - (d : ℤ) = 30) :
    overduePenalty today s = 60 := by
  have hne : s ≠ "" := by
    intro h0
    rw [h0, parseDateOrd_empty] at hdate
    cases hdate
  unfold overduePenalty
  rw [if_neg hne, hdate]
  dsimp only
  rw [h30]
  norm_num [overduePenaltyDays, OVERDUE_MULTIPLIER, OVERDUE_CAP, min_def]

/-- Claim C6 as amended: a contact whose priority tier has weight 0, whose
followup tier is `FU9`, and whose date is exactly 30 days before today scores
`0*0.30 + 0*0.25 + min(30*2, 100)*0.30 = 18.0` (the spec's worked example
mis-multiplies this to 30.0). -/
theorem C6_fu9_overdue_score (today : ℕ) (c : Contact) (d : ℕ)
    (hcp : CP_WEIGHTS c.contact_priority = 0)
    (hfu : c.follow_up_priority = "FU9")
    (hdate : parseDateOrd c.follow_up_date = some d)
    (h30 : (today : ℤ) - (d : ℤ) = 30) :
    score_contact today c = 18 := by
  have hpen : overduePenalty today c.follow_up_date = 60 :=
    overduePenalty_thirty today c.follow_up_date d hdate h30
  have hfu0 : FU_WEIGHTS c.follow_up_priority = 0 := by
    rw [hfu]
    decide
  simp only [score_contact, hcp, hfu0, hpen]
  have harg : (0 : ℚ) * 0.30 + 0 * 0.25 + 60 * 0.30 + 0 * 0.15 = 18 := by norm_num
  rw [harg]
  exact pyRound1_eighteen

/-- Witness for C6 at the concrete contact and dates (today = 2026-10-12,
date = 2026-09-12, ordinal 739901 and 739871). -/
theorem C6_fu9_overdue_score_witness :
    score_contact 739901 ⟨"", "FU9", "2026-09-12", none⟩ = 18 :=
  C6_fu9_overdue_score 739901 ⟨"", "FU9", "2026-09-12", none⟩ 739871
    (by decide) rfl (by decide) (by decide)

/-- Claim C6, counterexample: that contact scores 18.0, not the claimed
30.0. -/
theorem C6_counterexample :
    score_contact 739901 ⟨"", "FU9", "2026-09-12", none⟩ ≠ 30 := by
  have h18 : overduePenalty 739901 ("2026-09-12") = 60 :=
    overduePenalty_thirty 739901 ("2026-09-12") 739871 (by decide) (by decide)
  simp only [score_contact, h18]
  have hcp : CP_WEIGHTS ("") = 0 := by decide
  have hfu : FU_WEIGHTS ("FU9") = 0 := by decide
  rw [hcp, hfu]
  have harg : (0 : ℚ) * 0.30 + 0 * 0.25 + 60 * 0.30 + 0 * 0.15 = 18 := by norm_num
  rw [harg, pyRound1_eighteen]
  norm_num

/-- Claim C7: batch ranking returns exactly the input records annotated with
their scores (as a permutation of the annotated collection), sorted by score
descending, with equal-score records kept in input order (the filter at any
score value is unchanged), and it maps the empty collection to the empty
collection. -/
theorem C7_batch_ranking (today : ℕ) (contacts : List Contact) (entities : List Entity) :
    ((sort_contacts_by_score today contacts).Perm (contacts.map (annotateContact today)) ∧
      (sort_contacts_by_score today contacts).Pairwise
        (fun a b => contactKey b ≤ contactKey a) ∧
      (∀ q : ℚ, (sort_contacts_by_score today contacts).filter
          (fun c => decide (contactKey c = q)) =
        (contacts.map (annotateContact today)).filter
          (fun c => decide (contactKey c = q)))) ∧
    ((sort_entities_by_score today entities).Perm (entities.map (annotateEntity today)) ∧
      (sort_entities_by_score today entities).Pairwise
        (fun a b => entityKey b ≤ entityKey a) ∧
      (∀ q : ℚ, (sort_entities_by_score today entities).filter
          (fun e => decide (entityKey e = q)) =
        (entities.map (annotateEntity today)).filter
          (fun e => decide (entityKey e = q)))) ∧
    sort_contacts_by_score today [] = [] ∧
    sort_entities_by_score today [] = [] := by
  refine ⟨⟨?_, ?_, ?_⟩, ⟨?_, ?_, ?_⟩, rfl, rfl⟩
  · exact sortDescBy_perm contactKey (contacts.map (annotateContact today))
  · exact sortDescBy_sorted contactKey (contacts.map (annotateContact today))
  · intro q
    exact sortDescBy_filter contactKey (contacts.map (annotateContact today)) q
  · exact sortDescBy_perm entityKey (entities.map (annotateEntity today))
  · exact sortDescBy_sorted entityKey (entities.map (annotateEntity today))
  · intro q
    exact sortDescBy_filter entityKey (entities.map (annotateEntity today)) q

/-- Claim C8: the scorer has no failing path on string inputs. A date string
the parser rejects behaves exactly like an absent one — zero overdue penalty,
identical score, and a silent skip in auto-escalation — and every tier lookup
either hits a fixed table key or degrades to weight 0. (Totality of every
operation holds by construction of the model.) -/
theorem C8_error_handling :
    (∀ (today : ℕ) (s : String), parseDateOrd s = none → overduePenalty today s = 0) ∧
    (∀ (today : ℕ) (c : Contact), parseDateOrd c.follow_up_date = none →
      score_contact today c = score_contact today { c with follow_up_date := "" } ∧
      auto_upgrade_followup today [c] = ([c], [])) ∧
    (∀ (today : ℕ) (e : Entity), parseDateOrd e.follow_up_date = none →
      score_entity today e = score_entity today { e with follow_up_date := "" } ∧
      auto_upgrade_entity_followup today [e] = ([e], [])) ∧
    (∀ s : String, CP_WEIGHTS s = 0 ∨ s ∈ cpKeyList) ∧
    (∀ s : String, BP_WEIGHTS s = 0 ∨ s ∈ bpKeyList) ∧
    (∀ s : String, FU_WEIGHTS s = 0 ∨ s ∈ fuKeyList) := by
  have hpen : ∀ (today : ℕ) (s : String), parseDateOrd s = none →
      overduePenalty today s = 0 := by
    intro today s h
    unfold overduePenalty
    by_cases hs : s = ""
    · rw [if_pos hs]
    · rw [if_neg hs, h]
  refine ⟨hpen, ?_, ?_, ?_, ?_, ?_⟩
  · intro today c h
    constructor
    · simp only [score_contact]
      rw [hpen today c.follow_up_date h]
      have h2 : overduePenalty today ("") = 0 := rfl
      rw [h2]
    · rw [auto_upgrade_followup_cons]
      have hesc : specEscalateC today c = none := by
        unfold specEscalateC
        rw [h]
        split <;> rfl
      rw [hesc]
      rfl
  · intro today e h
    constructor
    · simp only [score_entity]
      rw [hpen today e.follow_up_date h]
      have h2 : overduePenalty today ("") = 0 := rfl
      rw [h2]
    · rw [auto_upgrade_entity_followup_cons]
      have hesc : specEscalateE today e = none := by
        unfold specEscalateE
        rw [h]
        split <;> rfl
      rw [hesc]
      rfl
  · intro s
    unfold CP_WEIGHTS
    split_ifs with h1 h2 h3 h4 h5 h6 h7 h8 h9 <;> simp_all [cpKeyList]
  · intro s
    unfold BP_WEIGHTS
    split_ifs with h1 h2 h3 h4 <;> simp_all [bpKeyList]
  · intro s
    unfold FU_WEIGHTS
    split_ifs with h1 h2 h3 h4 h5 <;> simp_all [fuKeyList]

/-- Witness for C8 on the malformed date `"2026-02-30"` (February 30 fails
`datetime.date` validation). -/
theorem C8_error_handling_witness :
    overduePenalty 739901 ("2026-02-30") = 0 ∧
    auto_upgrade_followup 739901 [⟨"", "FU5", "2026-02-30", none⟩] =
      ([⟨"", "FU5", "2026-02-30", none⟩], []) :=
  ⟨C8_error_handling.1 739901 ("2026-02-30") (by decide),
   (C8_error_handling.2.1 739901 ⟨"", "FU5", "2026-02-30", none⟩ (by decide)).2⟩

/-- Claim C10: for every contact record, whatever its string fields, the score
lies between 0.0 and 85.0 inclusive — the contact weights 0.30 + 0.25 + 0.30
sum to 0.85, each factor is at most 100, and the fourth 0.15-weighted term is
always zero. -/
theorem C10_contact_score_bounds (today : ℕ) (c : Contact) :
    0 ≤ score_contact today c ∧ score_contact today c ≤ 85 := by
  have hcp := CP_WEIGHTS_bounds c.contact_priority
  have hfu := FU_WEIGHTS_bounds c.follow_up_priority
  have hov := overduePenalty_bounds today c.follow_up_date
  simp only [score_contact]
  apply pyRound1_bounds
  · linarith [hcp.1, hfu.1, hov.1]
  · linarith [hcp.2, hfu.2, hov.2]
